import Mathlib

/-!
# BrightnessController — shallow embedding and verification

A shallow embedding of the brightness-control utility:
`src/core/security_manager.py`, `src/core/brightness_controller.py`,
`src/core/display_detector.py` and the legacy single-file variant
`src/brightness_controller.py`.

External shell invocations (`subprocess.run`) are modelled by an
environment `Env : Cmd → ProcResult` giving, for each concrete command
line, the outcome the external process would produce (timeout, other
exception, or exit code plus stdout text).  Every operation that may
shell out returns, next to its result, the list of commands it actually
issued, so that "performs zero external calls" is a statement about
that trace.

Python numeric values (`int`, `float`, `str` as accepted by `float()`)
are modelled by `PyVal`; finite floats are rationals.  String parsing by
Python's `float()` is modelled for plain decimal literals (optional
sign, digits, optional fractional part, surrounding whitespace), which
covers every input the spec and the control flow exercise.
-/

/-- Outcome of one external process invocation (`subprocess.run`). -/
inductive ProcResult where
  | timeout
  | err
  | ok (returncode : Int) (stdout : String)
  deriving DecidableEq, Repr

/-- A command line, as the list of parts passed to `subprocess.run`. -/
abbrev Cmd := List String

/-- The external world: what each concrete command would produce. -/
abbrev Env := Cmd → ProcResult

/-- ASCII whitespace, as Python's `str.strip()` removes it. -/
def isPySpace (c : Char) : Bool :=
  c ∈ [' ', '\t', '\n', '\r', '\x0b', '\x0c']

/-- Python's `str.strip()`: remove leading and trailing whitespace. -/
def pyStrip (s : String) : String :=
  ⟨((s.data.dropWhile isPySpace).reverse.dropWhile isPySpace).reverse⟩

/-- Python's `str.isdigit()` restricted to ASCII: nonempty and all
decimal digits. -/
def pyIsDigit (s : String) : Bool :=
  !s.data.isEmpty && s.data.all Char.isDigit

/-- Split a character list on a separator character, keeping empty
pieces — Python's `str.split(sep)` for a one-character separator. -/
def splitOnChar (sep : Char) : List Char → List (List Char)
  | [] => [[]]
  | c :: rest =>
    if c = sep then [] :: splitOnChar sep rest
    else
      match splitOnChar sep rest with
      | [] => [[c]]
      | g :: gs => (c :: g) :: gs

/-- Python's `s.split(sep)` for a one-character separator. -/
def pySplit (s : String) (sep : Char) : List String :=
  (splitOnChar sep s.data).map fun l => ⟨l⟩

/-- A Python value that can reach `float(value)` in this code base:
an `int`, a finite `float` (as a rational), or a `str`. -/
inductive PyVal where
  | int (n : Int)
  | float (q : ℚ)
  | str (s : String)
  deriving DecidableEq, Repr

/-- Numeric value of a list of decimal digits, most significant first. -/
def digitsVal (l : List Char) : ℕ :=
  l.foldl (fun a c => 10 * a + (c.toNat - 48)) 0

/-- Split a character list at the first occurrence of `'.'`, when present. -/
def splitAtDot : List Char → Option (List Char × List Char)
  | [] => none
  | c :: rest =>
    if c = '.' then some ([], rest)
    else match splitAtDot rest with
      | some (l, r) => some (c :: l, r)
      | none => none

/-- Modelled from Python's built-in `float(str)` on plain decimal
literals: optional surrounding whitespace, optional sign, an integer
part and an optional fractional part, with at least one digit.
(Exotic float syntax — exponents, `inf`, `nan`, underscores — does not
occur in this repository's data flow.) -/
def parsePyFloat (s : String) : Option ℚ :=
  let t := (pyStrip s).data
  let (sign, body) : Int × List Char :=
    match t with
    | '-' :: rest => (-1, rest)
    | '+' :: rest => (1, rest)
    | l => (1, l)
  match splitAtDot body with
  | none =>
    if !body.isEmpty && body.all Char.isDigit then
      some (mkRat (sign * (digitsVal body : Int)) 1)
    else none
  | some (ip, fp) =>
    if (!ip.isEmpty || !fp.isEmpty) && ip.all Char.isDigit && fp.all Char.isDigit then
      some (mkRat
        (sign * ((digitsVal ip * 10 ^ fp.length + digitsVal fp : ℕ) : Int))
        (10 ^ fp.length))
    else none

/-- Python's `float(value)` over `PyVal`: identity on numbers, decimal
parsing on strings; `none` models the `ValueError`/`TypeError` branch. -/
def pyFloat : PyVal → Option ℚ
  | .int n => some (mkRat n 1)
  | .float q => some q
  | .str s => parsePyFloat s

/-- Python's `int(q)` on a finite float: truncation toward zero. -/
def pyTrunc (q : ℚ) : Int := if 0 ≤ q then q.floor else q.ceil

/-- Python's `int(float(value))`; `none` models the exception branch. -/
def pyIntFloat (v : PyVal) : Option Int := (pyFloat v).map pyTrunc

namespace SecurityManager

/-- Embeds `self.safe_brightness_range = (0, 100)`. -/
def safe_brightness_range : ℚ × ℚ := (0, 100)

/-- Embeds `SecurityManager.validate_brightness_value`: `float(value)` then a
range check; the `except (ValueError, TypeError)` branch returns
`False`. -/
def validate_brightness_value (value : PyVal) : Bool :=
  match pyFloat value with
  | some numeric_value =>
    decide (safe_brightness_range.1 ≤ numeric_value ∧
            numeric_value ≤ safe_brightness_range.2)
  | none => false

/-- Characters of the safe pattern `[a-zA-Z0-9\s\-_=().,:/\\]`. -/
def safePowershellChar (c : Char) : Bool :=
  c.isAlpha || c.isDigit ||
  c ∈ [' ', '\t', '\n', '\r', '\x0b', '\x0c',
       '-', '_', '=', '(', ')', '.', ',', ':', '/', '\\']

/-- Embeds `self.safe_powershell_pattern.match(part)`: the regex
`^[a-zA-Z0-9\s\-_=().,:/\\]+$` requires a nonempty string of safe
characters. -/
def matchesSafePattern (s : String) : Bool :=
  !s.data.isEmpty && s.data.all safePowershellChar

/-- The `re.sub` that removes every character outside the safe class. -/
def stripUnsafeChars (s : String) : String :=
  ⟨s.data.filter safePowershellChar⟩

/-- Treatment of one command part inside
`SecurityManager.sanitize_powershell_command`. -/
def sanitizePart (s : String) : String :=
  if matchesSafePattern s then s else stripUnsafeChars s

/-- Embeds `SecurityManager.sanitize_powershell_command`. -/
def sanitize_powershell_command (cmd : List String) : List String :=
  cmd.map sanitizePart

/-- The `safe_namespaces` allow-list of `validate_wmi_namespace`. -/
def safe_namespaces : List String :=
  ["root/WMI", "root/CIMV2", "root/StandardCimv2"]

/-- The `safe_classes` allow-list of `validate_wmi_class`. -/
def safe_classes : List String :=
  ["WmiMonitorBrightness", "WmiMonitorBrightnessMethods",
   "Win32_DesktopMonitor", "Win32_VideoController"]

/-- Embeds `SecurityManager.validate_wmi_namespace`. -/
def validate_wmi_namespace (namespace_ : String) : Bool :=
  safe_namespaces.contains namespace_

/-- Embeds `SecurityManager.validate_wmi_class`. -/
def validate_wmi_class (class_name : String) : Bool :=
  safe_classes.contains class_name

/-- Embeds `SecurityManager.create_safe_wmi_command`: allow-list checks, then
the fixed command template, then sanitization.  `method`/`parameters`
default to `None`; the Python `if method:`/`if parameters:` truthiness
also treats an empty string as absent. -/
def create_safe_wmi_command (namespace_ class_name : String)
    (method : Option String := none) (parameters : Option String := none) :
    List String :=
  if !validate_wmi_namespace namespace_ then []
  else if !validate_wmi_class class_name then []
  else
    let base := s!"Get-WmiObject -Namespace {namespace_} -Class {class_name}"
    let wmi_query :=
      match method with
      | some m =>
        if m.isEmpty then base
        else
          match parameters with
          | some p =>
            if p.isEmpty then s!"({base}).{m}()"
            else s!"({base}).{m}({p})"
          | none => s!"({base}).{m}()"
      | none => base
    sanitize_powershell_command ["powershell", "-Command", wmi_query]

end SecurityManager

/-- A Python value stored in a display dictionary. -/
inductive PVal where
  | s (v : String)
  | b (v : Bool)
  | i (v : Int)
  deriving DecidableEq, Repr

/-- A Python dictionary, as produced by `DisplayInfo.to_dict`. -/
abbrev PyDict := List (String × PVal)

/-- Embeds `display_detector.DisplayInfo`: name, type, method and the extra
keyword properties. -/
structure DisplayInfo where
  name : String
  type : String
  method : String
  properties : List (String × PVal)
  deriving DecidableEq, Repr

/-- Embeds `DisplayInfo.to_dict`: the three fixed keys updated with the
properties (no property of this repository shadows a fixed key). -/
def DisplayInfo.to_dict (d : DisplayInfo) : PyDict :=
  [("name", .s d.name), ("type", .s d.type), ("method", .s d.method)] ++
  d.properties

namespace DisplayDetector

/-- The synthetic record built when both strategies find nothing. -/
def fallback_display : DisplayInfo :=
  { name := "Primary Display"
    type := "unknown"
    method := "wmi"
    properties := [("is_fallback", .b true)] }

/-- Embeds `DisplayDetector.detect_displays`, parametrised by the outcome of
the two strategies (each strategy swallows its own errors and yields a
— possibly empty — list of records): concatenate, and fall back to the
single synthetic record when the concatenation is empty. -/
def detect_displays (wmi_displays ddc_displays : List DisplayInfo) :
    List DisplayInfo :=
  let displays := wmi_displays ++ ddc_displays
  if displays.isEmpty then [fallback_display] else displays

/-- Embeds `DisplayDetector.get_display_by_index`: bounds-checked indexing into
the stored list, returning the record as a dictionary. -/
def get_display_by_index (displays : List DisplayInfo) (index : Int) :
    Option PyDict :=
  if 0 ≤ index ∧ index < (displays.length : Int) then
    (displays.get? index.toNat).map DisplayInfo.to_dict
  else none

end DisplayDetector

/-- A display dictionary as the controllers consume it: `method` is
`none` when the `"method"` key is absent (`display.get("method", "wmi")`
then defaults it). -/
structure Display where
  name : String
  type : String
  method : Option String
  deriving DecidableEq, Repr

/-- Replace the last element of a list (`cmd[-1] = f(cmd[-1])`). -/
def modifyLast (f : String → String) : List String → List String
  | [] => []
  | [a] => [f a]
  | a :: b :: rest => a :: modifyLast f (b :: rest)

namespace WMIBrightnessController

/-- One scan step of `WMIBrightnessController.get_brightness`'s line
loop: a bare digit line, or a `Key : Value` line whose first
colon-delimited field after the key is a digit string. -/
def parse_brightness_line (line : String) : Option Int :=
  let line_stripped := pyStrip line
  if pyIsDigit line_stripped then
    some (Int.ofNat (digitsVal line_stripped.data))
  else
    match pySplit line_stripped ':' with
    | _ :: p1 :: _ =>
      let t := pyStrip p1
      if pyIsDigit t then some (Int.ofNat (digitsVal t.data)) else none
    | _ => none

/-- The command `get_brightness` issues: the safe command for
`root/WMI` / `WmiMonitorBrightness`, its last part extended with the
`Select-Object` pipe. -/
def getCmd : Cmd :=
  modifyLast (fun s => s ++ " | Select-Object CurrentBrightness")
    (SecurityManager.create_safe_wmi_command "root/WMI" "WmiMonitorBrightness")

/-- Embeds `WMIBrightnessController.get_brightness`: build the safe command
(empty ⇒ `None` with no call), run it, and on exit code 0 scan the
stripped stdout lines for the first parseable brightness; every failure
path yields `None`. -/
def get_brightness (env : Env) (_display : Display) :
    Option Int × List Cmd :=
  let cmd0 := SecurityManager.create_safe_wmi_command "root/WMI" "WmiMonitorBrightness"
  if cmd0.isEmpty then (none, [])
  else
    let cmd := modifyLast (fun s => s ++ " | Select-Object CurrentBrightness") cmd0
    match env cmd with
    | .timeout => (none, [cmd])
    | .err => (none, [cmd])
    | .ok returncode stdout =>
      if returncode = 0 then
        ((pySplit (pyStrip stdout) '\n').findSome? parse_brightness_line, [cmd])
      else (none, [cmd])

/-- Embeds `WMIBrightnessController.set_brightness`: validate, build the safe
setter command (empty ⇒ `False` with no call), run it, succeed iff the
exit code is 0. -/
def set_brightness (env : Env) (_display : Display) (brightness : Int) :
    Bool × List Cmd :=
  if !SecurityManager.validate_brightness_value (.int brightness) then
    (false, [])
  else
    let cmd := SecurityManager.create_safe_wmi_command "root/WMI"
      "WmiMonitorBrightnessMethods" (some "WmiSetBrightness")
      (some s!"1,{brightness}")
    if cmd.isEmpty then (false, [])
    else
      match env cmd with
      | .timeout => (false, [cmd])
      | .err => (false, [cmd])
      | .ok returncode _ => (decide (returncode = 0), [cmd])

end WMIBrightnessController

namespace DDCBrightnessController

/-- The fixed value the placeholder returns. -/
def placeholder_brightness : Int := 50

/-- Embeds `DDCBrightnessController.get_brightness`: placeholder, always the
fixed constant, no external call. -/
def get_brightness (_display : Display) : Option Int × List Cmd :=
  (some placeholder_brightness, [])

/-- Embeds `DDCBrightnessController.set_brightness`: validates, then the
placeholder reports success; never an external call. -/
def set_brightness (_display : Display) (brightness : Int) :
    Bool × List Cmd :=
  if !SecurityManager.validate_brightness_value (.int brightness) then
    (false, [])
  else (true, [])

end DDCBrightnessController

namespace BrightnessController

/-- The two registered strategies of `self.controllers`. -/
inductive ControllerKind where
  | wmi
  | ddc
  deriving DecidableEq, Repr

/-- Embeds `self.controllers.get(method)`. -/
def controllers_get (method : String) : Option ControllerKind :=
  if method = "wmi" then some .wmi
  else if method = "ddc" then some .ddc
  else none

/-- Dispatch of `controller.get_brightness(display)`. -/
def controller_get_brightness (k : ControllerKind) (env : Env)
    (display : Display) : Option Int × List Cmd :=
  match k with
  | .wmi => WMIBrightnessController.get_brightness env display
  | .ddc => DDCBrightnessController.get_brightness display

/-- Dispatch of `controller.set_brightness(display, value)`. -/
def controller_set_brightness (k : ControllerKind) (env : Env)
    (display : Display) (brightness : Int) : Bool × List Cmd :=
  match k with
  | .wmi => WMIBrightnessController.set_brightness env display brightness
  | .ddc => DDCBrightnessController.set_brightness display brightness

/-- Embeds `BrightnessController.get_brightness`: `None` for a falsy display,
default the method to `"wmi"`, `None` when no controller is registered,
else dispatch. -/
def get_brightness (env : Env) (display : Option Display) :
    Option Int × List Cmd :=
  match display with
  | none => (none, [])
  | some d =>
    match controllers_get (d.method.getD "wmi") with
    | none => (none, [])
    | some controller => controller_get_brightness controller env d

/-- Embeds `BrightnessController.set_brightness`: falsy display ⇒ `False`;
convert via `int(float(brightness))` (`none` models the exception
branch ⇒ `False`); validate the converted integer; look up the
controller; dispatch. -/
def set_brightness (env : Env) (display : Option Display)
    (brightness : PyVal) : Bool × List Cmd :=
  match display with
  | none => (false, [])
  | some d =>
    match pyIntFloat brightness with
    | none => (false, [])
    | some brightness_int =>
      if !SecurityManager.validate_brightness_value (.int brightness_int) then
        (false, [])
      else
        match controllers_get (d.method.getD "wmi") with
        | none => (false, [])
        | some controller =>
          controller_set_brightness controller env d brightness_int

/-- Result record of `test_brightness_support`. -/
structure SupportInfo where
  get_ok : Bool
  set_ok : Bool
  method_available : Bool
  deriving DecidableEq, Repr

/-- Embeds `BrightnessController.test_brightness_support`: probe get; only if
it succeeded, probe set with the value get just returned.  The second
component records the values passed to `controller.set_brightness`. -/
def test_brightness_support (env : Env) (display : Display) :
    SupportInfo × List Int :=
  match controllers_get (display.method.getD "wmi") with
  | none => (⟨false, false, false⟩, [])
  | some controller =>
    match (controller_get_brightness controller env display).1 with
    | none => (⟨false, false, true⟩, [])
    | some current =>
      (⟨true, (controller_set_brightness controller env display current).1, true⟩,
       [current])

end BrightnessController

/-! ## Helper lemmas -/

theorem findSome_eq_none_of_forall_none {α β : Type} (f : α → Option β) :
    ∀ l : List α, (∀ x ∈ l, f x = none) → l.findSome? f = none := by
  intro l h
  induction l with
  | nil => rfl
  | cons a t ih =>
    rw [List.findSome?_cons, h a (List.mem_cons_self a t)]
    exact ih fun x hx => h x (List.mem_cons_of_mem a hx)

theorem findSome_first_match {α β : Type} (f : α → Option β)
    (pre post : List α) (x : α) (b : β)
    (hpre : ∀ y ∈ pre, f y = none) (hx : f x = some b) :
    (pre ++ x :: post).findSome? f = some b := by
  induction pre with
  | nil => simp [List.findSome?_cons, hx]
  | cons a t ih =>
    rw [List.cons_append, List.findSome?_cons,
        hpre a (List.mem_cons_self a t)]
    exact ih fun y hy => hpre y (List.mem_cons_of_mem a hy)

/-- The WMI get path always shells out exactly once with `getCmd`, and
its result is the first-match scan of the stdout lines on exit code 0. -/
theorem WMIBrightnessController.get_brightness_run (env : Env) (d : Display) :
    WMIBrightnessController.get_brightness env d =
      match env WMIBrightnessController.getCmd with
      | .timeout => (none, [WMIBrightnessController.getCmd])
      | .err => (none, [WMIBrightnessController.getCmd])
      | .ok returncode stdout =>
        if returncode = 0 then
          ((pySplit (pyStrip stdout) '\n').findSome?
             WMIBrightnessController.parse_brightness_line,
           [WMIBrightnessController.getCmd])
        else (none, [WMIBrightnessController.getCmd]) := rfl

theorem SecurityManager.all_safe_sanitizePart (s : String) :
    ∀ c ∈ (SecurityManager.sanitizePart s).data,
      SecurityManager.safePowershellChar c = true := by
  unfold SecurityManager.sanitizePart
  by_cases h : SecurityManager.matchesSafePattern s = true
  · rw [if_pos h]
    simp only [SecurityManager.matchesSafePattern, Bool.and_eq_true,
      List.all_eq_true] at h
    exact h.2
  · rw [if_neg h]
    intro c hc
    unfold SecurityManager.stripUnsafeChars at hc
    exact (List.mem_filter.mp hc).2

theorem SecurityManager.sanitizePart_of_all_safe (s : String)
    (h : ∀ c ∈ s.data, SecurityManager.safePowershellChar c = true) :
    SecurityManager.sanitizePart s = s := by
  unfold SecurityManager.sanitizePart
  by_cases hm : SecurityManager.matchesSafePattern s = true
  · rw [if_pos hm]
  · rw [if_neg hm]
    unfold SecurityManager.stripUnsafeChars
    rw [List.filter_eq_self.mpr h]

theorem SecurityManager.sanitizePart_idem (s : String) :
    SecurityManager.sanitizePart (SecurityManager.sanitizePart s) =
      SecurityManager.sanitizePart s :=
  SecurityManager.sanitizePart_of_all_safe _
    (SecurityManager.all_safe_sanitizePart s)

/-! ## Claims -/

/-- C1.  `validate_brightness_value(v)` returns true iff `v` parses as a
real number `q` with `0 ≤ q ≤ 100`; every non-numeric input yields
false (the exception is caught inside, the function is total). -/
theorem claim_C1_validate_iff (v : PyVal) :
    (SecurityManager.validate_brightness_value v = true ↔
      ∃ q : ℚ, pyFloat v = some q ∧ 0 ≤ q ∧ q ≤ 100) ∧
    (pyFloat v = none → SecurityManager.validate_brightness_value v = false) := by
  unfold SecurityManager.validate_brightness_value
  cases h : pyFloat v with
  | none => simp
  | some q => simp [SecurityManager.safe_brightness_range]

theorem claim_C1_witness :
    SecurityManager.validate_brightness_value (.str "50") = true ∧
    SecurityManager.validate_brightness_value (.str "150") = false ∧
    SecurityManager.validate_brightness_value (.str "abc") = false := by
  refine ⟨(claim_C1_validate_iff (.str "50")).1.mpr
    ⟨mkRat 50 1, rfl, by decide, by decide⟩, ?_, ?_⟩
  · decide
  · exact (claim_C1_validate_iff (.str "abc")).2 (by decide)

/-- C3.  `detect_displays` never yields an empty list; whenever both
strategies yield no records, the result is exactly the one fallback
record, whose type is `"unknown"`. -/
theorem claim_C3_detect_fallback (wmi_displays ddc_displays : List DisplayInfo) :
    DisplayDetector.detect_displays wmi_displays ddc_displays ≠ [] ∧
    (wmi_displays = [] → ddc_displays = [] →
      DisplayDetector.detect_displays wmi_displays ddc_displays =
        [DisplayDetector.fallback_display] ∧
      DisplayDetector.fallback_display.type = "unknown") := by
  refine ⟨?_, ?_⟩
  · unfold DisplayDetector.detect_displays
    by_cases h : (wmi_displays ++ ddc_displays).isEmpty = true
    · simp [h]
    · simp only [h, Bool.false_eq_true, if_false]
      simpa [List.isEmpty_iff] using h
  · rintro rfl rfl
    exact ⟨rfl, rfl⟩

theorem claim_C3_witness :
    DisplayDetector.detect_displays [] [] ≠ [] ∧
    DisplayDetector.detect_displays [] [] = [DisplayDetector.fallback_display] :=
  ⟨(claim_C3_detect_fallback [] []).1,
   ((claim_C3_detect_fallback [] []).2 rfl rfl).1⟩

/-- C6.  `create_safe_wmi_command` returns the empty command whenever
the namespace is off the namespace allow-list or the class is off the
class allow-list. -/
theorem claim_C6_allowlist (namespace_ class_name : String)
    (method parameters : Option String)
    (h : namespace_ ∉ SecurityManager.safe_namespaces ∨
         class_name ∉ SecurityManager.safe_classes) :
    SecurityManager.create_safe_wmi_command namespace_ class_name
      method parameters = [] := by
  rcases h with h | h
  · have hns : SecurityManager.validate_wmi_namespace namespace_ = false := by
      simp [SecurityManager.validate_wmi_namespace, List.elem_iff, h]
    simp [SecurityManager.create_safe_wmi_command, hns]
  · have hcl : SecurityManager.validate_wmi_class class_name = false := by
      simp [SecurityManager.validate_wmi_class, List.elem_iff, h]
    by_cases hn : SecurityManager.validate_wmi_namespace namespace_ = true
    · simp [SecurityManager.create_safe_wmi_command, hn, hcl]
    · rw [Bool.not_eq_true] at hn
      simp [SecurityManager.create_safe_wmi_command, hn]

theorem claim_C6_witness :
    SecurityManager.create_safe_wmi_command "root/Evil"
      "WmiMonitorBrightness" none none = [] :=
  claim_C6_allowlist "root/Evil" "WmiMonitorBrightness" none none
    (Or.inl (by decide))

/-- C10.  `get_display_by_index(i)` returns the record at position `i`
as a dictionary when `0 ≤ i <` the number of displays, and `none` for
every negative or past-the-end index. -/
theorem claim_C10_index_bounds (displays : List DisplayInfo) (i : Int) :
    (∀ (_h0 : 0 ≤ i) (h1 : i.toNat < displays.length),
      DisplayDetector.get_display_by_index displays i =
        some (displays.get ⟨i.toNat, h1⟩).to_dict) ∧
    (i < 0 ∨ (displays.length : Int) ≤ i →
      DisplayDetector.get_display_by_index displays i = none) := by
  constructor
  · intro h0 h1
    unfold DisplayDetector.get_display_by_index
    rw [if_pos ⟨h0, by omega⟩, List.get?_eq_get h1]
    rfl
  · intro h
    unfold DisplayDetector.get_display_by_index
    rw [if_neg (by omega)]

/-- C2 counterexample.  `set_brightness` truncates the value with
`int(float(·))` before validating: the fractional value `100.5` fails
range validation, yet `set` truncates it to `100`, shells out once and
reports success — the value is adjusted into range, not rejected. -/
theorem claim_C2_counterexample :
    SecurityManager.validate_brightness_value (.float (mkRat 201 2)) = false ∧
    (BrightnessController.set_brightness (fun _ => .ok 0 "")
      (some ⟨"Laptop Display", "internal", some "wmi"⟩)
      (.float (mkRat 201 2))).1 = true ∧
    ((BrightnessController.set_brightness (fun _ => .ok 0 "")
      (some ⟨"Laptop Display", "internal", some "wmi"⟩)
      (.float (mkRat 201 2))).2).length = 1 := by
  refine ⟨by decide, rfl, rfl⟩

/-- C2 (amended).  `set_brightness` first converts the value with
`int(float(·))` (truncation toward zero) and validates the truncated
integer: whenever the conversion fails or the truncated integer fails
range validation, it returns false having performed zero external
invocations.  (Fractional values in `(100,101)` or `(-1,0)` are
truncated into range rather than rejected.) -/
theorem claim_C2_reject_no_call (env : Env) (display : Option Display)
    (v : PyVal)
    (h : ∀ n, pyIntFloat v = some n →
      SecurityManager.validate_brightness_value (.int n) = false) :
    BrightnessController.set_brightness env display v = (false, []) := by
  unfold BrightnessController.set_brightness
  cases display with
  | none => rfl
  | some d =>
    cases hv : pyIntFloat v with
    | none => simp only [hv]
    | some n => simp only [hv, h n hv, Bool.not_false, if_true]

theorem claim_C2_witness :
    BrightnessController.set_brightness (fun _ => .ok 0 "")
      (some ⟨"Laptop Display", "internal", some "wmi"⟩) (.str "150") =
      (false, []) :=
  claim_C2_reject_no_call _ _ _ (fun n hn => by
    rw [show pyIntFloat (.str "150") = some 150 from by decide] at hn
    simp only [Option.some.injEq] at hn
    subst hn
    decide)

/-- C4.  On a display whose declared method has no registered strategy,
`get_brightness` returns `none` and `set_brightness` returns `false`,
both with zero external invocations. -/
theorem claim_C4_unregistered_method (env : Env) (d : Display) (m : String)
    (v : PyVal) (hm : d.method = some m)
    (h1 : m ≠ "wmi") (h2 : m ≠ "ddc") :
    BrightnessController.get_brightness env (some d) = (none, []) ∧
    BrightnessController.set_brightness env (some d) v = (false, []) := by
  have hc : BrightnessController.controllers_get (d.method.getD "wmi") = none := by
    rw [hm]
    simp [BrightnessController.controllers_get, h1, h2]
  constructor
  · unfold BrightnessController.get_brightness
    simp only [hc]
  · unfold BrightnessController.set_brightness
    cases hv : pyIntFloat v with
    | none => simp only [hv]
    | some n =>
      simp only [hv, hc]
      cases SecurityManager.validate_brightness_value (.int n) <;> simp

theorem claim_C4_witness :
    BrightnessController.get_brightness (fun _ => .ok 0 "")
      (some ⟨"Mystery", "external", some "xrandr"⟩) = (none, []) ∧
    BrightnessController.set_brightness (fun _ => .ok 0 "")
      (some ⟨"Mystery", "external", some "xrandr"⟩) (.int 50) = (false, []) :=
  claim_C4_unregistered_method (fun _ => .ok 0 "")
    ⟨"Mystery", "external", some "xrandr"⟩ "xrandr" (.int 50) rfl
    (by decide) (by decide)

/-- C5.  The WMI get strategy returns `none` on timeout, on any other
exception, on a non-zero exit code and when no output line parses; on
exit code 0 it returns the first line that parses as a bare integer or
as a `Key : Value` integer; in particular stdout
`"CurrentBrightness : 72"` with exit code 0 yields 72.  It always issues
exactly the one query command. -/
theorem claim_C5_wmi_get_scan (env : Env) (d : Display) :
    (env WMIBrightnessController.getCmd = .timeout ∨
      env WMIBrightnessController.getCmd = .err →
      WMIBrightnessController.get_brightness env d =
        (none, [WMIBrightnessController.getCmd])) ∧
    (∀ rc out, env WMIBrightnessController.getCmd = .ok rc out → rc ≠ 0 →
      WMIBrightnessController.get_brightness env d =
        (none, [WMIBrightnessController.getCmd])) ∧
    (∀ out, env WMIBrightnessController.getCmd = .ok 0 out →
      (∀ l ∈ pySplit (pyStrip out) '\n',
        WMIBrightnessController.parse_brightness_line l = none) →
      WMIBrightnessController.get_brightness env d =
        (none, [WMIBrightnessController.getCmd])) ∧
    (∀ out pre line post b, env WMIBrightnessController.getCmd = .ok 0 out →
      pySplit (pyStrip out) '\n' = pre ++ line :: post →
      (∀ l ∈ pre, WMIBrightnessController.parse_brightness_line l = none) →
      WMIBrightnessController.parse_brightness_line line = some b →
      WMIBrightnessController.get_brightness env d =
        (some b, [WMIBrightnessController.getCmd])) ∧
    (env WMIBrightnessController.getCmd = .ok 0 "CurrentBrightness : 72" →
      WMIBrightnessController.get_brightness env d =
        (some 72, [WMIBrightnessController.getCmd])) := by
  refine ⟨?_, ?_, ?_, ?_, ?_⟩
  · rintro (h | h) <;> rw [WMIBrightnessController.get_brightness_run, h]
  · intro rc out h hrc
    rw [WMIBrightnessController.get_brightness_run, h]
    simp [hrc]
  · intro out h hnone
    rw [WMIBrightnessController.get_brightness_run, h]
    simp [findSome_eq_none_of_forall_none _ _ hnone]
  · intro out pre line post b h hsplit hpre hline
    rw [WMIBrightnessController.get_brightness_run, h]
    simp [hsplit, findSome_first_match _ _ _ _ _ hpre hline]
  · intro h
    rw [WMIBrightnessController.get_brightness_run, h]
    rfl

theorem claim_C5_witness :
    WMIBrightnessController.get_brightness
      (fun _ => .ok 0 "CurrentBrightness : 72")
      ⟨"Laptop Display", "internal", some "wmi"⟩ =
      (some 72, [WMIBrightnessController.getCmd]) :=
  (claim_C5_wmi_get_scan _ _).2.2.2.2 rfl

/-- C7.  `test_brightness_support` probes set only when the preceding
get succeeded, and then with exactly the value get returned: the list of
values passed to `controller.set_brightness` is empty, or is the one
value the strategy's get returned. -/
theorem claim_C7_testSupport_value (env : Env) (d : Display) :
    (BrightnessController.test_brightness_support env d).2 = [] ∨
    ∃ k v, BrightnessController.controllers_get (d.method.getD "wmi") = some k ∧
      (BrightnessController.controller_get_brightness k env d).1 = some v ∧
      (BrightnessController.test_brightness_support env d).2 = [v] := by
  cases hk : BrightnessController.controllers_get (d.method.getD "wmi") with
  | none =>
    left
    simp only [BrightnessController.test_brightness_support, hk]
  | some k =>
    cases hv : (BrightnessController.controller_get_brightness k env d).1 with
    | none =>
      left
      simp only [BrightnessController.test_brightness_support, hk, hv]
    | some v =>
      refine Or.inr ⟨k, v, rfl, hv, ?_⟩
      simp only [BrightnessController.test_brightness_support, hk, hv]

/-- C8 counterexample.  The DDC placeholder's set is not unconditional:
it validates first and returns false for the out-of-range value 101. -/
theorem claim_C8_counterexample :
    (DDCBrightnessController.set_brightness
      ⟨"External Monitor 1", "external", some "ddc"⟩ 101).1 = false := by
  decide

/-- C8 (amended).  The DDC placeholder's get always returns the fixed
constant 50 with no external call; its set never performs an external
call and reports success exactly when the value passes brightness
validation. -/
theorem claim_C8_placeholder (d : Display) (b : Int) :
    DDCBrightnessController.get_brightness d = (some 50, []) ∧
    DDCBrightnessController.set_brightness d b =
      (SecurityManager.validate_brightness_value (.int b), []) := by
  refine ⟨rfl, ?_⟩
  unfold DDCBrightnessController.set_brightness
  cases h : SecurityManager.validate_brightness_value (.int b) <;> simp [h]

/-- C9.  `sanitize_powershell_command` preserves the number of tokens,
leaves every token containing only allow-listed characters, returns
tokens that already match the safe pattern unchanged, and is
idempotent. -/
theorem claim_C9_sanitize_props (cmd : List String) :
    (SecurityManager.sanitize_powershell_command cmd).length = cmd.length ∧
    (∀ s ∈ SecurityManager.sanitize_powershell_command cmd,
      ∀ c ∈ s.data, SecurityManager.safePowershellChar c = true) ∧
    (∀ s ∈ cmd, SecurityManager.matchesSafePattern s = true →
      SecurityManager.sanitizePart s = s) ∧
    SecurityManager.sanitize_powershell_command
      (SecurityManager.sanitize_powershell_command cmd) =
      SecurityManager.sanitize_powershell_command cmd := by
  refine ⟨?_, ?_, ?_, ?_⟩
  · simp [SecurityManager.sanitize_powershell_command]
  · intro s hs
    obtain ⟨t, _, rfl⟩ :=
      List.mem_map.mp (by simpa [SecurityManager.sanitize_powershell_command] using hs)
    exact SecurityManager.all_safe_sanitizePart t
  · intro s _ hm
    unfold SecurityManager.sanitizePart
    rw [if_pos hm]
  · unfold SecurityManager.sanitize_powershell_command
    rw [List.map_map]
    exact List.map_congr_left fun s _ => SecurityManager.sanitizePart_idem s

theorem claim_C9_witness :
    (SecurityManager.sanitize_powershell_command ["rm ;-rf"]).length = 1 ∧
    SecurityManager.sanitizePart "powershell" = "powershell" :=
  ⟨(claim_C9_sanitize_props ["rm ;-rf"]).1,
   (claim_C9_sanitize_props ["powershell"]).2.2.1 "powershell"
     (List.mem_singleton.mpr rfl) (by decide)⟩

theorem claim_C10_witness :
    DisplayDetector.get_display_by_index [DisplayDetector.fallback_display] 0 =
      some DisplayDetector.fallback_display.to_dict ∧
    DisplayDetector.get_display_by_index [DisplayDetector.fallback_display] (-1) =
      none :=
  ⟨(claim_C10_index_bounds [DisplayDetector.fallback_display] 0).1
      (by decide) (by decide),
   (claim_C10_index_bounds [DisplayDetector.fallback_display] (-1)).2
      (Or.inl (by decide))⟩
